import Mathlib

/-!
Verification model of the CoreRoute HTTP router (dist/coreroute.js,
src/core-route-response.ts, src/mime-type.ts).

The JavaScript source is embedded shallowly:

* Route patterns are compiled by `pathToRegex`, mirroring the source's
  `#pathToRegex`.  Instead of building a regex string, the compiled form is a
  list of segment matchers (`SegPat`); `regexMatch` gives the semantics of the
  anchored regex the source builds
  (a path matches the regex built from non-empty segment regexes joined by
  slashes and anchored on both sides exactly when it decomposes into matching
  slash-free segments).
* The platform response object (`http.ServerResponse`) is modelled by
  `ServerResponse`; `setHeader`/`writeHead` raise a headers-already-sent error
  once headers are out, as Node does, modelled with `Except NodeError`.
  Header names are compared case-sensitively (the claims only use one casing).
* The file system seen by the static handler is an oracle (`FS`): the result
  of `fs.stat` (is it a directory), `fs.access` (readable), the streamed file
  content, and whether the read stream errors.
* Handlers are arbitrary functions from the request and the wrapped response
  to either a final response state or a thrown error, carried as the error's
  string representation together with the response state at the throw.

Strings are processed on their character lists with structural recursion so
that every concrete run of the model reduces inside the kernel.
-/

namespace CoreRouteModel

/-- Splits a character list at every occurrence of the given character,
like the JavaScript `String.prototype.split` with a one-character separator:
the result is always non-empty and keeps empty fields. -/
def splitOnChar (c : Char) : List Char → List (List Char)
  | [] => [[]]
  | x :: xs =>
    let r := splitOnChar c xs
    if x = c then [] :: r
    else
      match r with
      | h :: t => (x :: h) :: t
      | [] => [[x]]

/-- Split a string on the slash character (JavaScript `split('/')`). -/
def splitSlash (s : String) : List String :=
  (splitOnChar '/' s.data).map String.mk

/-- Lookup in an association list of strings, first match wins
(used to model reads from a JavaScript plain object whose keys are unique). -/
def lookupStr : List (String × String) → String → Option String
  | [], _ => none
  | (k, v) :: rest, n => if k = n then some v else lookupStr rest n

/-- Replaces a key's value, or appends the pair, preserving insertion order:
the behaviour of assigning to a field of a JavaScript object in insertion
order, and of Node's `setHeader` for an existing header name. -/
def upsertHeader (hs : List (String × String)) (n v : String) : List (String × String) :=
  if hs.any (fun p => p.1 = n) then hs.map (fun p => if p.1 = n then (n, v) else p)
  else hs ++ [(n, v)]

/-- Folds a header object into an existing header list, entry by entry
(Node's `writeHead` merging its headers argument over `setHeader` state). -/
def mergeHeaders (hs : List (String × String)) (new : List (String × String)) :
    List (String × String) :=
  new.foldl (fun acc nv => upsertHeader acc nv.1 nv.2) hs

/-- A compiled route-pattern segment: either a literal segment (the source
escapes every regex metacharacter, so the regex fragment matches exactly the
literal text) or a named parameter, whose regex fragment is a named capture
group matching one or more non-slash characters. -/
inductive SegPat where
  | lit (s : String)
  | param (name : String)
deriving Repr, DecidableEq

/-- Name of a parameter segment, if the segment is one. -/
def SegPat.paramName? : SegPat → Option String
  | .lit _ => none
  | .param n => some n

/-- The source's `#pathToRegex`: replace every backslash (and slash) by a
slash, split on slashes, turn each segment starting with a colon into a
named capture and every other non-empty segment into an escaped literal,
drop empty fragments, and collect parameter names in textual order.
The compiled regex `^/seg1/.../segN$` is represented by the segment list;
an empty list stands for the regex matching exactly the root path. -/
def pathToRegex (routePattern : String) : List SegPat × List String :=
  let escaped : String := String.mk (routePattern.data.map fun c => if c = '\\' then '/' else c)
  let segs := splitSlash escaped
  let pats := segs.filterMap fun seg =>
    if seg.data.head? = some ':' then some (SegPat.param (String.mk (seg.data.drop 1)))
    else if seg = "" then none
    else some (SegPat.lit seg)
  let paramNames := segs.filterMap fun seg =>
    if seg.data.head? = some ':' then some (String.mk (seg.data.drop 1))
    else none
  (pats, paramNames)

/-- Whether one path segment (a slash-free piece of the request path) is
accepted by one compiled segment: a literal matches exactly its text, a
parameter's capture group `[^/]+` matches any non-empty slash-free text. -/
def segMatches : SegPat → String → Bool
  | .lit s, x => x = s
  | .param _, x => x ≠ "" && !(x.data.any fun c => c = '/')

/-- All segments match pairwise and the two lists have the same length. -/
def allMatch : List SegPat → List String → Bool
  | [], [] => true
  | p :: ps, x :: xs => segMatches p x && allMatch ps xs
  | _, _ => false

/-- Semantics of executing the compiled anchored regex against a path:
`some xs` is a successful match whose capture of the i-th segment is `xs[i]`,
`none` is a failed match.  For a non-empty segment list the regex is
`^/R1/.../RN$` with each `Ri` matching only slash-free text, so a match
forces the path to split as a leading slash followed by exactly `N`
slash-separated matching segments; for the empty segment list the built
regex is `^/$`. -/
def regexMatch (pats : List SegPat) (path : String) : Option (List String) :=
  if pats.isEmpty then
    if path = "/" then some [] else none
  else
    match splitSlash path with
    | "" :: xs => if allMatch pats xs then some xs else none
    | _ => none

/-- The named-capture bindings of a successful match, in segment order:
each parameter segment binds its name to the text it captured.  This is the
content of `RegExpExecArray.groups` (each named group with its captured
text; group names are unique in any regex the JavaScript engine accepts,
since duplicate named groups are a `SyntaxError` at construction). -/
def extractParams (pats : List SegPat) (xs : List String) : List (String × String) :=
  (pats.zip xs).filterMap fun px =>
    match px.1 with
    | .param n => some (n, px.2)
    | .lit _ => none

/-- Reading `groups[name]` from the match result. -/
def matchGroups (pats : List SegPat) (xs : List String) : String → Option String :=
  lookupStr (extractParams pats xs)

/-- The dispatch loop over `route.paramNames`: copy `groups[paramName]` into
the fresh `params` object when it is truthy (defined and non-empty). -/
def buildParams (paramNames : List String) (groups : String → Option String) :
    List (String × String) :=
  paramNames.filterMap fun n =>
    match groups n with
    | some v => if v = "" then none else some (n, v)
    | none => none

/-! URL and file-system paths.

The dispatcher parses `new URL(requestUrl, base).pathname` and the static
handler computes `path.join` on POSIX paths.  Both platform functions are
modelled below for origin-form request targets (the form every HTTP request
line carries: a path starting with `/`, optionally followed by a query).
Percent-encoding is left untouched, as both platform functions do. -/

/-- Resolution of dot segments by the WHATWG URL path parser: `..` removes
the previous segment, `.` is dropped, and a final `.` or `..` leaves a
trailing empty segment (so `/a/..` parses to `/` and `/a/.` to `/a/`). -/
def resolveDotSegs : List String → List String → List String
  | acc, [] => acc
  | acc, [s] =>
    if s = ".." then acc.dropLast ++ [""]
    else if s = "." then acc ++ [""]
    else acc ++ [s]
  | acc, s :: rest =>
    if s = ".." then resolveDotSegs acc.dropLast rest
    else if s = "." then resolveDotSegs acc rest
    else resolveDotSegs (acc ++ [s]) rest

/-- The `pathname` of `new URL(u, base)` for a request target: characters up
to the first `?` or `#`, with backslashes treated as slashes (the parser of
special-scheme URLs does), dot segments resolved, and a leading slash
guaranteed.  Percent-encoded dot segments (`%2e`) are not modelled; no claim
exercises them. -/
def urlPathname (u : String) : String :=
  let cut := String.mk ((u.data.takeWhile fun c => ¬(c = '?' ∨ c = '#')).map
    fun c => if c = '\\' then '/' else c)
  let cut := if cut.data.head? = some '/' then cut else String.mk ('/' :: cut.data)
  let segs := (splitSlash cut).drop 1
  "/" ++ String.intercalate "/" (resolveDotSegs [] segs)

/-- Normalisation of segments by POSIX `path.normalize`: empty and `.`
segments are dropped, `..` pops the last kept segment when there is one that
is not itself `..`, is dropped at the root of an absolute path, and is kept
when a relative path starts with it. -/
def normalizeSegs (absolute : Bool) : List String → List String → List String
  | acc, [] => acc
  | acc, s :: rest =>
    if s = "" ∨ s = "." then normalizeSegs absolute acc rest
    else if s = ".." then
      match acc.getLast? with
      | some t =>
        if t = ".." then normalizeSegs absolute (acc ++ [".."]) rest
        else normalizeSegs absolute acc.dropLast rest
      | none =>
        if absolute then normalizeSegs absolute acc rest
        else normalizeSegs absolute [".."] rest
    else normalizeSegs absolute (acc ++ [s]) rest

/-- POSIX `path.normalize`: collapse duplicate slashes, resolve `.` and `..`,
keep a trailing slash, and return `.` (or `/`) when nothing remains. -/
def pathNormalize (p : String) : String :=
  let absolute := p.data.head? = some '/'
  let trailing := p.data.getLast? = some '/'
  let out := normalizeSegs absolute [] (splitSlash p)
  let core := String.intercalate "/" out
  let r := (if absolute then "/" else "") ++ core ++ (if trailing ∧ core ≠ "" then "/" else "")
  if r = "" then (if absolute then "/" else ".") else r

/-- POSIX `path.join` of two parts: the non-empty parts joined with a slash
and normalised; `.` when both are empty. -/
def pathJoin (a b : String) : String :=
  if a = "" ∧ b = "" then "."
  else if a = "" then pathNormalize b
  else if b = "" then pathNormalize a
  else pathNormalize (a ++ "/" ++ b)

/-! The MIME resolver (src/mime-type.ts, static part used by static file
serving). -/

/-- The static extension-to-MIME table of `MimeTypes`. -/
def mimeTypeMap : List (String × String) := [
  ("aac", "audio/aac"),
  ("abw", "application/x-abiword"),
  ("arc", "application/octet-stream"),
  ("avi", "video/x-msvideo"),
  ("azw", "application/vnd.amazon.ebook"),
  ("bin", "application/octet-stream"),
  ("bmp", "image/bmp"),
  ("bz", "application/x-bzip"),
  ("bz2", "application/x-bzip2"),
  ("csh", "application/x-csh"),
  ("css", "text/css"),
  ("csv", "text/csv"),
  ("doc", "application/msword"),
  ("docx", "application/vnd.openxmlformats-officedocument.wordprocessingml.document"),
  ("eot", "application/vnd.ms-fontobject"),
  ("epub", "application/epub+zip"),
  ("gif", "image/gif"),
  ("htm", "text/html"),
  ("html", "text/html"),
  ("ico", "image/x-icon"),
  ("ics", "text/calendar"),
  ("jar", "application/java-archive"),
  ("jpg", "image/jpeg"),
  ("jpeg", "image/jpeg"),
  ("js", "application/javascript"),
  ("json", "application/json"),
  ("mid", "audio/midi"),
  ("mpeg", "video/mpeg"),
  ("mpkg", "application/vnd.apple.installer+xml"),
  ("odp", "application/vnd.oasis.opendocument.presentation"),
  ("ods", "application/vnd.oasis.opendocument.spreadsheet"),
  ("odt", "application/vnd.oasis.opendocument.text"),
  ("oga", "audio/ogg"),
  ("ogv", "video/ogg"),
  ("ogx", "application/ogg"),
  ("otf", "font/otf"),
  ("png", "image/png"),
  ("pdf", "application/pdf"),
  ("ppt", "application/vnd.ms-powerpoint"),
  ("pptx", "application/vnd.openxmlformats-officedocument.presentationml.presentation"),
  ("rar", "application/x-rar-compressed"),
  ("rtf", "application/rtf"),
  ("sh", "application/x-sh"),
  ("svg", "image/svg+xml"),
  ("swf", "application/x-shockwave-flash"),
  ("tar", "application/x-tar"),
  ("tif", "image/tiff"),
  ("ts", "application/typescript"),
  ("ttf", "font/ttf"),
  ("vsd", "application/vnd.visio"),
  ("wav", "audio/x-wav"),
  ("weba", "audio/webm"),
  ("webm", "video/webm"),
  ("webp", "image/webp"),
  ("woff", "font/woff"),
  ("woff2", "font/woff2"),
  ("xhtml", "application/xhtml+xml"),
  ("xls", "application/vnd.ms-excel"),
  ("xlsx", "application/vnd.openxmlformats-officedocument.spreadsheetml.sheet"),
  ("xml", "application/xml"),
  ("xul", "application/vnd.mozilla.xul+xml"),
  ("zip", "application/zip"),
  ("3gp", "audio/3gpp dans le cas où le conteneur ne comprend pas de vidéo"),
  ("3g2", "audio/3gpp2 dans le cas où le conteneur ne comprend pas de vidéo"),
  ("7z", "application/x-7z-compressed")]

/-- POSIX `path.extname`: the suffix of the last non-empty path segment from
its last dot on, empty when the segment has no dot, when the only dot is the
leading character, or for the segment `..`. -/
def extname (f : String) : String :=
  let b := (((splitOnChar '/' f.data).filter fun seg => seg ≠ []).getLastD [])
  let ext := (b.reverse.takeWhile fun c => c ≠ '.')
  if ext.length = b.length then ""
  else if b.length - ext.length - 1 = 0 then ""
  else if b = ['.', '.'] then ""
  else String.mk ('.' :: ext.reverse)

/-- The source's `MimeTypes.getType`: look the lower-cased, dot-stripped
extension up in the static table, defaulting to `application/octet-stream`. -/
def MimeTypes.getType (file : String) : String :=
  let extension := String.mk (((extname file).data.drop 1).map Char.toLower)
  (lookupStr mimeTypeMap extension).getD "application/octet-stream"

/-- Modelled from the spec: `MimeTypes.getTypeFromBuffer`, the magic-byte
sniffing used by the response wrapper's generic `send`.  The function itself
is absent from the sources in the repository snapshot (only its callers in
src/core-route-response.ts are present); per the spec it inspects the leading
bytes against known magic-number signatures and returns null when
unrecognised.  A representative signature table stands in for the unknown
full one; no claim depends on particular entries. -/
def MimeTypes.getTypeFromBuffer (bytes : List Nat) : Option String :=
  if bytes.take 4 = [0x89, 0x50, 0x4E, 0x47] then some "image/png"
  else if bytes.take 3 = [0xFF, 0xD8, 0xFF] then some "image/jpeg"
  else if bytes.take 4 = [0x25, 0x50, 0x44, 0x46] then some "application/pdf"
  else if bytes.take 3 = [0x47, 0x49, 0x46] then some "image/gif"
  else if bytes.take 4 = [0x50, 0x4B, 0x03, 0x04] then some "application/zip"
  else none

/-! The platform response object and the response wrapper
(src/core-route-response.ts). -/

/-- State of an `http.ServerResponse`: headers staged by `setHeader`, and
after the header block goes out, the status line, final header block and
body chunks. -/
structure ServerResponse where
  headersSent : Bool := false
  pendingHeaders : List (String × String) := []
  sentStatus : Option Nat := none
  sentHeaders : List (String × String) := []
  body : List String := []
  ended : Bool := false
deriving Repr, DecidableEq

/-- A synchronous platform error: Node raises `ERR_HTTP_HEADERS_SENT`
(message "Cannot set headers after they are sent to the client") from
`setHeader` and `writeHead` once the header block has been written.  The
response state at the moment of the raise is carried along. -/
inductive NodeError where
  | headersAlreadySent (res : ServerResponse)
deriving Repr, DecidableEq

/-- Node's `response.setHeader`: stages a header, raising once headers are
sent. -/
def ServerResponse.setHeader (res : ServerResponse) (n v : String) :
    Except NodeError ServerResponse :=
  if res.headersSent then .error (.headersAlreadySent res)
  else .ok { res with pendingHeaders := upsertHeader res.pendingHeaders n v }

/-- Node's `response.writeHead`: writes the status line and the staged
headers merged with the given ones, raising once headers are sent. -/
def ServerResponse.writeHead (res : ServerResponse) (status : Nat)
    (headers : List (String × String)) : Except NodeError ServerResponse :=
  if res.headersSent then .error (.headersAlreadySent res)
  else .ok { res with
    headersSent := true
    sentStatus := some status
    sentHeaders := mergeHeaders res.pendingHeaders headers }

/-- Node's `response.end`: flushes implicit headers (default status 200) when
none were written yet, appends the optional final chunk and finishes the
response. -/
def ServerResponse.endWrite (res : ServerResponse) (data : Option String) : ServerResponse :=
  let res := if res.headersSent then res
    else { res with
      headersSent := true
      sentStatus := some 200
      sentHeaders := res.pendingHeaders }
  { res with body := res.body ++ data.toList, ended := true }

/-- The wrapper `CoreRouteResponse`: the wrapped platform response plus the
buffered status code (`#statusCode`). -/
structure CoreRouteResponse where
  res : ServerResponse := {}
  statusCode : Option Nat := none
deriving Repr, DecidableEq

/-- The wrapper's read-only `headersSent` passthrough. -/
def CoreRouteResponse.headersSent (cr : CoreRouteResponse) : Bool :=
  cr.res.headersSent

/-- The wrapper's `status(code)`: buffers the code only while headers are
unsent, and always returns the instance. -/
def CoreRouteResponse.status (cr : CoreRouteResponse) (code : Nat) : CoreRouteResponse :=
  if cr.res.headersSent then cr else { cr with statusCode := some code }

/-- The wrapper's `set(field, value)` (single-header form): forwards
unconditionally to the platform `setHeader`. -/
def CoreRouteResponse.set (cr : CoreRouteResponse) (field value : String) :
    Except NodeError CoreRouteResponse := do
  let r ← cr.res.setHeader field value
  .ok { cr with res := r }

/-- The wrapper's `set(fields)` (object form): forwards each entry to the
platform `setHeader` in turn. -/
def CoreRouteResponse.setMany (cr : CoreRouteResponse) (fields : List (String × String)) :
    Except NodeError CoreRouteResponse :=
  fields.foldlM (fun c nv => c.set nv.1 nv.2) cr

/-- The wrapper's `json(data)`: `data` stands for the `JSON.stringify` text
of the payload (serialisation is not remodelled).  Sets the content type and
writes the buffered status (default 200) only while headers are unsent, then
ends with the serialised body. -/
def CoreRouteResponse.json (cr : CoreRouteResponse) (data : String) :
    Except NodeError CoreRouteResponse :=
  let finalStatusCode := cr.statusCode.getD 200
  if cr.res.headersSent then
    .ok { cr with res := cr.res.endWrite (some data) }
  else do
    let cr ← cr.set "Content-Type" "application/json"
    let r ← cr.res.writeHead finalStatusCode []
    .ok { cr with res := r.endWrite (some data) }

/-- Argument of the wrapper's polymorphic `send`: a string, a binary buffer,
or a plain object (carried as its `JSON.stringify` text). -/
inductive SendData where
  | str (s : String)
  | buf (bytes : List Nat)
  | obj (jsonText : String)
deriving Repr, DecidableEq

/-- Rendering of a buffer as a body chunk (chunks are kept as strings). -/
def bytesToString (bytes : List Nat) : String :=
  String.mk (bytes.map fun b => Char.ofNat b)

/-- The wrapper's `send(data)`: picks the content type from the data's shape
(string: text/plain; buffer: sniffed magic bytes or octet-stream; object:
JSON), writes the buffered status only while headers are unsent, and ends
with the rendered data. -/
def CoreRouteResponse.send (cr : CoreRouteResponse) (data : SendData) :
    Except NodeError CoreRouteResponse :=
  let finalStatusCode := cr.statusCode.getD 200
  let ct : String × String :=
    match data with
    | .str s => ("text/plain", s)
    | .buf bs => ((MimeTypes.getTypeFromBuffer bs).getD "application/octet-stream", bytesToString bs)
    | .obj j => ("application/json", j)
  if cr.res.headersSent then
    .ok { cr with res := cr.res.endWrite (some ct.2) }
  else do
    let cr ← cr.set "Content-Type" ct.1
    let r ← cr.res.writeHead finalStatusCode []
    .ok { cr with res := r.endWrite (some ct.2) }

/-- The wrapper's `end()` (named `endResponse` here; `end` is reserved):
writes the buffered status only while headers are unsent, then ends without
a body. -/
def CoreRouteResponse.endResponse (cr : CoreRouteResponse) :
    Except NodeError CoreRouteResponse :=
  let finalStatusCode := cr.statusCode.getD 200
  if cr.res.headersSent then
    .ok { cr with res := cr.res.endWrite none }
  else do
    let r ← cr.res.writeHead finalStatusCode []
    .ok { cr with res := r.endWrite none }

/-! The router (dist/coreroute.js). -/

/-- An incoming request: its method, its raw request target (`req.url`), and
the `params` property the dispatcher attaches.  The `Host` header only feeds
the base of `new URL` and cannot influence the pathname of an origin-form
target, so it is not carried. -/
structure Request where
  method : String
  url : String
  params : List (String × String) := []

/-- A route handler: user code receiving the request and the wrapped
response.  It either returns (with the response state it produced) or throws
synchronously; a throw is carried as the thrown value's string
representation (what `"" + error` yields) together with the response state
at the moment of the throw. -/
def Handler : Type :=
  Request → CoreRouteResponse → Except (String × CoreRouteResponse) CoreRouteResponse

/-- A registered route, as stored by the registration methods. -/
structure Route where
  routePattern : String
  pats : List SegPat
  paramNames : List String
  handler : Handler

/-- The default CORS policy of `#corsOptions`. -/
def defaultCorsOptions : List (String × String) := [
  ("Access-Control-Allow-Origin", "*"),
  ("Access-Control-Allow-Methods", "GET, POST, PUT, DELETE, PATCH, OPTIONS"),
  ("Access-Control-Allow-Headers", "Content-Type, Authorization")]

/-- The `CoreRoute` instance state: the five per-method route lists, the
CORS policy and the static-file configuration. -/
structure CoreRoute where
  gets : List Route := []
  puts : List Route := []
  posts : List Route := []
  deletes : List Route := []
  patchs : List Route := []
  corsOptions : List (String × String) := defaultCorsOptions
  staticFolder : String := ""
  isStaticServingEnabled : Bool := false

/-- `get(routePattern, callback)`: compile the pattern and append the route. -/
def CoreRoute.get (r : CoreRoute) (routePattern : String) (callback : Handler) : CoreRoute :=
  let c := pathToRegex routePattern
  { r with gets := r.gets ++ [⟨routePattern, c.1, c.2, callback⟩] }

/-- `put(routePattern, callback)`. -/
def CoreRoute.put (r : CoreRoute) (routePattern : String) (callback : Handler) : CoreRoute :=
  let c := pathToRegex routePattern
  { r with puts := r.puts ++ [⟨routePattern, c.1, c.2, callback⟩] }

/-- `post(routePattern, callback)`. -/
def CoreRoute.post (r : CoreRoute) (routePattern : String) (callback : Handler) : CoreRoute :=
  let c := pathToRegex routePattern
  { r with posts := r.posts ++ [⟨routePattern, c.1, c.2, callback⟩] }

/-- `delete(routePattern, callback)`. -/
def CoreRoute.delete (r : CoreRoute) (routePattern : String) (callback : Handler) : CoreRoute :=
  let c := pathToRegex routePattern
  { r with deletes := r.deletes ++ [⟨routePattern, c.1, c.2, callback⟩] }

/-- `patch(routePattern, callback)`. -/
def CoreRoute.patch (r : CoreRoute) (routePattern : String) (callback : Handler) : CoreRoute :=
  let c := pathToRegex routePattern
  { r with patchs := r.patchs ++ [⟨routePattern, c.1, c.2, callback⟩] }

/-- `all(routePattern, callback)`: registers through the five methods. -/
def CoreRoute.all (r : CoreRoute) (routePattern : String) (callback : Handler) : CoreRoute :=
  ((((r.get routePattern callback).put routePattern callback).post routePattern
    callback).delete routePattern callback).patch routePattern callback

/-- `serveStaticFiles(folder)`. -/
def CoreRoute.serveStaticFiles (r : CoreRoute) (folder : String) : CoreRoute :=
  { r with staticFolder := folder, isStaticServingEnabled := true }

/-- `setCors(options)`. -/
def CoreRoute.setCors (r : CoreRoute) (options : List (String × String)) : CoreRoute :=
  { r with corsOptions := options }

/-- `#applyCorsHeaders`: `setHeader` for each configured CORS header, in
insertion order. -/
def applyCorsHeaders (cors : List (String × String)) (res : ServerResponse) :
    Except NodeError ServerResponse :=
  cors.foldlM (fun r nv => r.setHeader nv.1 nv.2) res

/-- `#errorHandler`: a plain-text response with the given status and body. -/
def errorHandler (res : ServerResponse) (httpCode : Nat) (message : String) :
    Except NodeError ServerResponse := do
  let res ← res.writeHead httpCode [("Content-Type", "text/plain")]
  .ok (res.endWrite (some message))

/-- The file system as the static handler observes it: whether `fs.stat`
reports a directory, whether `fs.access(R_OK)` grants read access, the
content a read stream delivers, and whether the stream errors instead. -/
structure FS where
  isDirectory : String → Bool
  readable : String → Bool
  content : String → String
  streamFails : String → Bool

/-- Whether a character list contains a slash immediately followed by a
dot. -/
def containsSlashDot : List Char → Bool
  | '/' :: '.' :: _ => true
  | _ :: rest => containsSlashDot rest
  | [] => false

/-- A JavaScript regex line terminator, which the dot atom never matches. -/
def isLineTerminator (c : Char) : Bool :=
  c = '\n' ∨ c = '\r' ∨ c = ' ' ∨ c = ' '

/-- The dotfile test of `#serveFile`: `/^.*\/\..*$/.test(filePath)`.  The
regex accepts exactly the strings that contain the two-character sequence
slash-dot, split into a prefix and a suffix of dot atoms, so a line
terminator anywhere defeats it. -/
def dotfileTest (filePath : String) : Bool :=
  containsSlashDot filePath.data && !(filePath.data.any isLineTerminator)

/-- `#serveFile`: reject with 403 any path the dotfile regex
`^.*\/\..*$` accepts, without touching the file system; otherwise check read
access, then either stream the file under its resolved MIME type behind a
200 header (a stream error triggers the 500 error handler, whose header
write necessarily raises because the 200 header block is already out) or
respond 404. -/
def serveFile (fs : FS) (filePath : String) (res : ServerResponse) :
    Except NodeError ServerResponse :=
  if dotfileTest filePath then errorHandler res 403 "Forbidden"
  else if fs.readable filePath then do
    let res ← res.writeHead 200 [("Content-Type", MimeTypes.getType filePath)]
    if fs.streamFails filePath then
      errorHandler res 500 "Internal Server Error during static file service"
    else
      .ok (res.endWrite (some (fs.content filePath)))
  else errorHandler res 404 "File Not Found"

/-- `#staticHandler`: join the static folder with the raw request target;
for a directory, serve its `index.html` when readable, and otherwise send a
404 — after which, the early return being missing in the source, `serveFile`
still runs on the directory path; for a non-directory, serve the path as
is. -/
def staticHandler (router : CoreRoute) (fs : FS) (req : Request) (res : ServerResponse) :
    Except NodeError ServerResponse :=
  let requestUrl := req.url
  let filePath := pathJoin router.staticFolder requestUrl
  if fs.isDirectory filePath then
    let indexPath := pathJoin filePath "index.html"
    if fs.readable indexPath then
      serveFile fs indexPath res
    else do
      let res ← errorHandler res 404 "File Not Found"
      serveFile fs filePath res
  else
    serveFile fs filePath res

/-- The switch of `#dispatch` that selects the per-method route list;
`OPTIONS` is handled before this and every other method selects nothing. -/
def methodRoutes (router : CoreRoute) (method : String) : Option (List Route) :=
  match method with
  | "GET" => some router.gets
  | "PUT" => some router.puts
  | "POST" => some router.posts
  | "DELETE" => some router.deletes
  | "PATCH" => some router.patchs
  | _ => none

/-- The dispatch loop: first route whose regex matches the pathname, with
its captures. -/
def findMatch : List Route → String → Option (Route × List String)
  | [], _ => none
  | r :: rest, p =>
    match regexMatch r.pats p with
    | some xs => some (r, xs)
    | none => findMatch rest p

/-- The `params` object dispatch attaches for a matched route. -/
def dispatchParams (route : Route) (xs : List String) : List (String × String) :=
  buildParams route.paramNames (matchGroups route.pats xs)

/-- The matched-route step of `#dispatch`: attach the params, wrap the
response (the wrapper aliases the platform response, so applying the CORS
headers afterwards is applying them to the wrapped response), apply the CORS
headers, and invoke the handler inside the try/catch that converts a
synchronous throw into the 500 error response. -/
def invokeRoute (router : CoreRoute) (route : Route) (xs : List String)
    (req : Request) (res : ServerResponse) : Except NodeError ServerResponse := do
  let params := dispatchParams route xs
  let req := { req with params := params }
  let res ← applyCorsHeaders router.corsOptions res
  let coreRes : CoreRouteResponse := { res := res }
  match route.handler req coreRes with
  | .ok cr => .ok cr.res
  | .error (errStr, cr) =>
    errorHandler cr.res 500 ("Internal Server Error : " ++ errStr)

/-- The fall-through of `#dispatch` when no route matched (or the method has
no route list): the static handler when enabled, the 404 otherwise. -/
def staticOrNotFound (router : CoreRoute) (fs : FS) (req : Request) (res : ServerResponse) :
    Except NodeError ServerResponse :=
  if router.isStaticServingEnabled then staticHandler router fs req res
  else errorHandler res 404 "Route Not Found"

/-- The pathname `#dispatch` matches against: `req.url || '/'` parsed by
`new URL` relative to the host base. -/
def pathnameOf (req : Request) : String :=
  urlPathname (if req.url = "" then "/" else req.url)

/-- `#dispatch`: `OPTIONS` short-circuits into the CORS preflight response;
otherwise the method's route list is scanned in order against the parsed
pathname, the first match is invoked, and everything else falls through to
static serving or the 404. -/
def CoreRoute.dispatch (router : CoreRoute) (fs : FS) (req : Request) (res : ServerResponse) :
    Except NodeError ServerResponse :=
  if req.method = "OPTIONS" then do
    let res ← applyCorsHeaders router.corsOptions res
    let res ← res.writeHead 204 []
    .ok (res.endWrite none)
  else
    match methodRoutes router req.method with
    | some routes =>
      match findMatch routes (pathnameOf req) with
      | some rx => invokeRoute router rx.1 rx.2 req res
      | none => staticOrNotFound router fs req res
    | none => staticOrNotFound router fs req res

/-! Concrete fixtures used to run the model on the scenarios named by the
specification: probe handlers are user code, file-system oracles describe the
directory trees of the scenarios. -/

/-- Renders a params list for observation through a response body. -/
def renderParams (ps : List (String × String)) : String :=
  String.intercalate "&" (ps.map fun p => p.1 ++ "=" ++ p.2)

/-- A handler that records its tag and the params it was given in the
response body and returns without finalising. -/
def probeHandler (tag : String) : Handler := fun req cr =>
  .ok { cr with res := { cr.res with
    body := cr.res.body ++ [tag ++ "|" ++ renderParams req.params] } }

/-- A file system with nothing in it. -/
def emptyFs : FS := ⟨fun _ => false, fun _ => false, fun _ => "", fun _ => false⟩

/-- A file system where every path is a readable non-directory file. -/
def allReadableFs : FS := ⟨fun _ => false, fun _ => true, fun _ => "secret-content", fun _ => false⟩

/-- The match-priority scenario: `/user/:id` registered before
`/user/admin`, both for GET. -/
def c1Router : CoreRoute :=
  (({} : CoreRoute).get "/user/:id" (probeHandler "A")).get "/user/admin" (probeHandler "B")

/-- The parameter-extraction scenario: one GET route
`/blog/:category/:postId`. -/
def c2Router : CoreRoute :=
  ({} : CoreRoute).get "/blog/:category/:postId" (probeHandler "H")

/-- The method-isolation scenario: `/items` registered only via `post`. -/
def c5Router : CoreRoute :=
  ({} : CoreRoute).post "/items" (probeHandler "P")

/-- A handler that finalises the response with `send` and then throws. -/
def throwingAfterSendHandler : Handler := fun _ cr =>
  match cr.send (.str "ok") with
  | .ok cr2 => .error ("Error: boom", cr2)
  | .error _ => .error ("unreachable", cr)

/-- Static serving rooted at the process working directory (`.`). -/
def dotRouter : CoreRoute := ({} : CoreRoute).serveStaticFiles "."

/-- Static serving rooted at `/www`. -/
def wwwRouter : CoreRoute := ({} : CoreRoute).serveStaticFiles "/www"

/-- `/www/docs` is a directory and its `index.html` is not readable; the
directory itself, like everything else, passes the access check. -/
def c8Fs : FS := ⟨fun p => p = "/www/docs", fun p => p ≠ "/www/docs/index.html",
  fun _ => "X", fun _ => false⟩

/-- `/www/docs` is a directory with a readable `index.html`. -/
def c8IdxFs : FS := ⟨fun p => p = "/www/docs", fun _ => true,
  fun p => if p = "/www/docs/index.html" then "IDX" else "", fun _ => false⟩

/-- Only the file `/www/a.txt` exists and is readable. -/
def c9Fs : FS := ⟨fun _ => false, fun p => p = "/www/a.txt",
  fun p => if p = "/www/a.txt" then "AAA" else "", fun _ => false⟩

/-! Control-flow lemmas about dispatch, shared by the claim theorems. -/

theorem errorHandler_sent (res : ServerResponse) (code : Nat) (msg : String)
    (h : res.headersSent = true) :
    errorHandler res code msg = .error (.headersAlreadySent res) := by
  simp only [errorHandler, ServerResponse.writeHead, h]
  rfl

theorem errorHandler_unsent (res : ServerResponse) (code : Nat) (msg : String)
    (h : res.headersSent = false) :
    errorHandler res code msg = .ok { res with
      headersSent := true
      sentStatus := some code
      sentHeaders := mergeHeaders res.pendingHeaders [("Content-Type", "text/plain")]
      body := res.body ++ [msg]
      ended := true } := by
  simp only [errorHandler, ServerResponse.writeHead, h, Bool.false_eq_true, if_false]
  rfl

theorem applyCorsHeaders_unsent (cors : List (String × String)) (res : ServerResponse)
    (h : res.headersSent = false) :
    applyCorsHeaders cors res =
      .ok { res with pendingHeaders := mergeHeaders res.pendingHeaders cors } := by
  induction cors generalizing res with
  | nil => rfl
  | cons nv rest ih =>
    have step : res.setHeader nv.1 nv.2 =
        .ok { res with pendingHeaders := upsertHeader res.pendingHeaders nv.1 nv.2 } := by
      simp [ServerResponse.setHeader, h]
    simpa [applyCorsHeaders, step, mergeHeaders] using
      ih { res with pendingHeaders := upsertHeader res.pendingHeaders nv.1 nv.2 } h

theorem findMatch_append (pre : List Route) (route : Route) (post : List Route)
    (p : String) (xs : List String)
    (hpre : ∀ r ∈ pre, regexMatch r.pats p = none)
    (hroute : regexMatch route.pats p = some xs) :
    findMatch (pre ++ route :: post) p = some (route, xs) := by
  induction pre with
  | nil => simp [findMatch, hroute]
  | cons r rest ih =>
    have hr : regexMatch r.pats p = none := hpre r (by simp)
    simpa [findMatch, hr] using ih fun r' hr' => hpre r' (by simp [hr'])

theorem findMatch_none (routes : List Route) (p : String)
    (h : ∀ r ∈ routes, regexMatch r.pats p = none) :
    findMatch routes p = none := by
  induction routes with
  | nil => rfl
  | cons r rest ih =>
    have hr : regexMatch r.pats p = none := h r (by simp)
    simpa [findMatch, hr] using ih fun r' hr' => h r' (by simp [hr'])

theorem dispatch_match (router : CoreRoute) (fs : FS) (req : Request) (res : ServerResponse)
    (routes pre post : List Route) (route : Route) (xs : List String)
    (hm : req.method ≠ "OPTIONS")
    (hroutes : methodRoutes router req.method = some routes)
    (hsplit : routes = pre ++ route :: post)
    (hpre : ∀ r ∈ pre, regexMatch r.pats (pathnameOf req) = none)
    (hroute : regexMatch route.pats (pathnameOf req) = some xs) :
    router.dispatch fs req res = invokeRoute router route xs req res := by
  have hfm : findMatch routes (pathnameOf req) = some (route, xs) := by
    rw [hsplit]; exact findMatch_append pre route post _ xs hpre hroute
  unfold CoreRoute.dispatch
  simp only [if_neg hm, hroutes, hfm]

theorem dispatch_nomatch_some (router : CoreRoute) (fs : FS) (req : Request)
    (res : ServerResponse) (routes : List Route)
    (hm : req.method ≠ "OPTIONS")
    (hroutes : methodRoutes router req.method = some routes)
    (hnone : ∀ r ∈ routes, regexMatch r.pats (pathnameOf req) = none) :
    router.dispatch fs req res = staticOrNotFound router fs req res := by
  have hfm : findMatch routes (pathnameOf req) = none := findMatch_none routes _ hnone
  unfold CoreRoute.dispatch
  simp only [if_neg hm, hroutes, hfm]

theorem dispatch_nomatch_none (router : CoreRoute) (fs : FS) (req : Request)
    (res : ServerResponse)
    (hm : req.method ≠ "OPTIONS")
    (hroutes : methodRoutes router req.method = none) :
    router.dispatch fs req res = staticOrNotFound router fs req res := by
  unfold CoreRoute.dispatch
  simp only [if_neg hm, hroutes]

/-! Lemmas about parameter extraction. -/

theorem pats_paramNames (p : String) :
    ((pathToRegex p).1).filterMap SegPat.paramName? = (pathToRegex p).2 := by
  unfold pathToRegex
  simp only [List.filterMap_filterMap]
  congr 1
  funext seg
  by_cases h1 : seg.data.head? = some ':'
  · simp [h1, SegPat.paramName?]
  · by_cases h2 : seg = "" <;> simp [h1, h2, SegPat.paramName?]

theorem regexMatch_allMatch (pats : List SegPat) (path : String) (xs : List String)
    (h : regexMatch pats path = some xs) : allMatch pats xs = true := by
  unfold regexMatch at h
  split at h
  · split at h
    · obtain rfl : ([] : List String) = xs := by simpa using h
      have : pats = [] := by simpa [List.isEmpty_iff] using ‹pats.isEmpty = true›
      simp [this, allMatch]
    · exact absurd h (by simp)
  · split at h
    · split at h
      · obtain rfl : _ = xs := by simpa using h
        assumption
      · exact absurd h (by simp)
    · exact absurd h (by simp)

theorem extractParams_keys (pats : List SegPat) (xs : List String)
    (h : allMatch pats xs = true) :
    (extractParams pats xs).map Prod.fst = pats.filterMap SegPat.paramName? := by
  induction pats generalizing xs with
  | nil => cases xs <;> simp [extractParams]
  | cons p ps ih =>
    cases xs with
    | nil => simp [allMatch] at h
    | cons x xs =>
      have h' : allMatch ps xs = true := by
        simp only [allMatch, Bool.and_eq_true] at h
        exact h.2
      cases p with
      | lit s => simpa [extractParams, SegPat.paramName?] using ih xs h'
      | param n => simpa [extractParams, SegPat.paramName?] using ih xs h'

theorem extractParams_param_cons (n : String) (x : String) (ps : List SegPat)
    (xs : List String) :
    extractParams (SegPat.param n :: ps) (x :: xs) = (n, x) :: extractParams ps xs := rfl

theorem extractParams_lit_cons (s : String) (x : String) (ps : List SegPat)
    (xs : List String) :
    extractParams (SegPat.lit s :: ps) (x :: xs) = extractParams ps xs := rfl

theorem extractParams_values_ne (pats : List SegPat) (xs : List String)
    (h : allMatch pats xs = true) :
    ∀ pv ∈ extractParams pats xs, pv.2 ≠ "" := by
  induction pats generalizing xs with
  | nil => cases xs <;> simp [extractParams]
  | cons p ps ih =>
    cases xs with
    | nil => simp [allMatch] at h
    | cons x xs =>
      simp only [allMatch, Bool.and_eq_true] at h
      cases p with
      | lit s =>
        intro pv hpv
        rw [extractParams_lit_cons] at hpv
        exact ih xs h.2 pv hpv
      | param n =>
        intro pv hpv
        rw [extractParams_param_cons] at hpv
        rcases List.mem_cons.mp hpv with heq | hmem
        · subst heq
          have hx : x ≠ "" := by
            have hs := h.1
            simp only [segMatches, Bool.and_eq_true, decide_eq_true_eq] at hs
            exact hs.1
          simpa using hx
        · exact ih xs h.2 pv hmem

theorem buildParams_congr (names : List String) (g g' : String → Option String)
    (h : ∀ n ∈ names, g n = g' n) : buildParams names g = buildParams names g' := by
  induction names with
  | nil => rfl
  | cons n rest ih =>
    simp only [buildParams, List.filterMap_cons]
    rw [h n (by simp)]
    have := ih fun n' hn' => h n' (by simp [hn'])
    simp only [buildParams] at this
    rw [this]

theorem buildParams_cons_some (n v : String) (names : List String)
    (g : String → Option String) (hg : g n = some v) (hv : v ≠ "") :
    buildParams (n :: names) g = (n, v) :: buildParams names g := by
  simp [buildParams, List.filterMap_cons, hg, hv]

theorem buildParams_self (L : List (String × String))
    (hnd : (L.map Prod.fst).Nodup) (hne : ∀ pv ∈ L, pv.2 ≠ "") :
    buildParams (L.map Prod.fst) (lookupStr L) = L := by
  induction L with
  | nil => rfl
  | cons kv L ih =>
    obtain ⟨k, v⟩ := kv
    simp only [List.map_cons, List.nodup_cons] at hnd
    have hv : v ≠ "" := hne (k, v) (by simp)
    have hg : ∀ n ∈ L.map Prod.fst, lookupStr ((k, v) :: L) n = lookupStr L n := by
      intro n hn
      have hkn : k ≠ n := fun hkn => hnd.1 (hkn ▸ hn)
      simp [lookupStr, hkn]
    rw [List.map_cons, buildParams_cons_some k v _ _ (by simp [lookupStr]) hv,
        buildParams_congr _ _ _ hg, ih hnd.2 fun pv hpv => hne pv (by simp [hpv])]

theorem dispatchParams_eq (p path : String) (route : Route) (xs : List String)
    (hpats : route.pats = (pathToRegex p).1)
    (hnames : route.paramNames = (pathToRegex p).2)
    (hnd : route.paramNames.Nodup)
    (hmatch : regexMatch route.pats path = some xs) :
    dispatchParams route xs = extractParams route.pats xs := by
  have hall := regexMatch_allMatch route.pats path xs hmatch
  have hkeys : (extractParams route.pats xs).map Prod.fst = route.paramNames := by
    rw [extractParams_keys route.pats xs hall, hpats, pats_paramNames, hnames]
  unfold dispatchParams matchGroups
  rw [← hkeys]
  exact buildParams_self _ (hkeys ▸ hnd) (extractParams_values_ne route.pats xs hall)

/-! Outcome lemmas for the individual dispatch branches. -/

/-- The preflight response on a fresh platform response. -/
theorem dispatch_options_fresh (router : CoreRoute) (fs : FS) (req : Request)
    (h : req.method = "OPTIONS") :
    router.dispatch fs req {} = .ok {
      headersSent := true
      pendingHeaders := mergeHeaders [] router.corsOptions
      sentStatus := some 204
      sentHeaders := mergeHeaders [] router.corsOptions
      body := []
      ended := true } := by
  unfold CoreRoute.dispatch
  rw [if_pos h, applyCorsHeaders_unsent _ _ rfl]
  rfl

/-- An `OPTIONS` dispatch only reads the CORS policy: routers agreeing on it
behave identically, whatever their routes, static configuration, the file
system or the request target. -/
theorem dispatch_options_invariant (r1 r2 : CoreRoute) (fs1 fs2 : FS)
    (req1 req2 : Request) (res : ServerResponse)
    (h1 : req1.method = "OPTIONS") (h2 : req2.method = "OPTIONS")
    (hc : r1.corsOptions = r2.corsOptions) :
    r1.dispatch fs1 req1 res = r2.dispatch fs2 req2 res := by
  unfold CoreRoute.dispatch
  rw [if_pos h1, if_pos h2, hc]

/-- The 404 fall-through with static serving disabled. -/
theorem staticOrNotFound_disabled (router : CoreRoute) (fs : FS) (req : Request)
    (res : ServerResponse)
    (h : router.isStaticServingEnabled = false) (hres : res.headersSent = false) :
    staticOrNotFound router fs req res = .ok { res with
      headersSent := true
      sentStatus := some 404
      sentHeaders := mergeHeaders res.pendingHeaders [("Content-Type", "text/plain")]
      body := res.body ++ ["Route Not Found"]
      ended := true } := by
  unfold staticOrNotFound
  rw [h]
  simp only [Bool.false_eq_true, if_false]
  exact errorHandler_unsent res 404 _ hres

/-- The matched-route step on an unsent response, written out: the handler
receives the request with the extracted params and a response whose staged
headers are the CORS policy; a normal return passes the handler's response
through, a throw is routed into the 500 error handler. -/
theorem invokeRoute_unsent (router : CoreRoute) (route : Route) (xs : List String)
    (req : Request) (res : ServerResponse) (h : res.headersSent = false) :
    invokeRoute router route xs req res =
      match route.handler { req with params := dispatchParams route xs }
          { res := { res with pendingHeaders := mergeHeaders res.pendingHeaders router.corsOptions } } with
      | .ok cr => .ok cr.res
      | .error (errStr, cr) => errorHandler cr.res 500 ("Internal Server Error : " ++ errStr) := by
  unfold invokeRoute
  rw [applyCorsHeaders_unsent _ _ h]
  rfl

/-- The dotfile rejection: `serveFile` on a path the dotfile regex accepts is
the 403 error response, with no mention of the file system. -/
theorem serveFile_dotfile (fs : FS) (filePath : String) (res : ServerResponse)
    (h : dotfileTest filePath = true) :
    serveFile fs filePath res = errorHandler res 403 "Forbidden" := by
  simp [serveFile, h]

/-- Serving an accessible, non-dotfile path whose stream delivers. -/
theorem serveFile_ok (fs : FS) (filePath : String) (res : ServerResponse)
    (hdot : dotfileTest filePath = false) (hread : fs.readable filePath = true)
    (hstream : fs.streamFails filePath = false) (hres : res.headersSent = false) :
    serveFile fs filePath res = .ok { res with
      headersSent := true
      sentStatus := some 200
      sentHeaders := mergeHeaders res.pendingHeaders [("Content-Type", MimeTypes.getType filePath)]
      body := res.body ++ [fs.content filePath]
      ended := true } := by
  simp only [serveFile, hdot, Bool.false_eq_true, if_false, hread, if_true,
    ServerResponse.writeHead, hres]
  simp only [hstream, Bool.false_eq_true, if_false]
  rfl

/-- Serving an inaccessible, non-dotfile path. -/
theorem serveFile_notReadable (fs : FS) (filePath : String) (res : ServerResponse)
    (hdot : dotfileTest filePath = false) (hread : fs.readable filePath = false) :
    serveFile fs filePath res = errorHandler res 404 "File Not Found" := by
  simp [serveFile, hdot, hread]

/-- On a non-directory candidate the static handler is `serveFile` on the
joined path. -/
theorem staticHandler_nondir (router : CoreRoute) (fs : FS) (req : Request)
    (res : ServerResponse)
    (h : fs.isDirectory (pathJoin router.staticFolder req.url) = false) :
    staticHandler router fs req res = serveFile fs (pathJoin router.staticFolder req.url) res := by
  simp [staticHandler, h]

/-- The static handler never reads the CORS policy. -/
theorem staticHandler_cors_independent (cors' : List (String × String)) (router : CoreRoute)
    (fs : FS) (req : Request) (res : ServerResponse) :
    staticHandler { router with corsOptions := cors' } fs req res = staticHandler router fs req res := rfl

/-- Bind on a successful `Except` computation reduces to the continuation. -/
theorem exceptBind_ok {e a b : Type} (x : a) (f : a → Except e b) :
    (Except.ok x >>= f : Except e b) = f x := rfl

/-- Bind on a failed `Except` computation short-circuits. -/
theorem exceptBind_error {e a b : Type} (err : e) (f : a → Except e b) :
    (Except.error err >>= f : Except e b) = Except.error err := rfl

/-! Lemmas about the response wrapper guards. -/

theorem status_sent (cr : CoreRouteResponse) (code : Nat)
    (h : cr.res.headersSent = true) : cr.status code = cr := by
  simp [CoreRouteResponse.status, h]

theorem set_sent (cr : CoreRouteResponse) (f v : String)
    (h : cr.res.headersSent = true) :
    cr.set f v = .error (.headersAlreadySent cr.res) := by
  simp only [CoreRouteResponse.set, ServerResponse.setHeader, h, if_true]
  rfl

theorem endResponse_headersSent (cr cr' : CoreRouteResponse)
    (h : cr.endResponse = .ok cr') : cr'.res.headersSent = true := by
  unfold CoreRouteResponse.endResponse at h
  by_cases hs : cr.res.headersSent = true
  · rw [if_pos hs] at h
    obtain rfl : _ = cr' := by simpa using h
    simp [ServerResponse.endWrite, hs]
  · have hs' : cr.res.headersSent = false := by simpa using hs
    rw [if_neg hs] at h
    simp only [ServerResponse.writeHead, hs', Bool.false_eq_true, if_false, exceptBind_ok] at h
    obtain rfl : _ = cr' := by simpa using h
    simp [ServerResponse.endWrite]

theorem send_headersSent (cr cr' : CoreRouteResponse) (d : SendData)
    (h : cr.send d = .ok cr') : cr'.res.headersSent = true := by
  unfold CoreRouteResponse.send at h
  by_cases hs : cr.res.headersSent = true
  · rw [if_pos hs] at h
    obtain rfl : _ = cr' := by simpa using h
    simp [ServerResponse.endWrite, hs]
  · have hs' : cr.res.headersSent = false := by simpa using hs
    rw [if_neg hs] at h
    simp only [CoreRouteResponse.set, ServerResponse.setHeader, hs', Bool.false_eq_true,
      if_false, exceptBind_ok, ServerResponse.writeHead] at h
    obtain rfl : _ = cr' := by simpa using h
    simp [ServerResponse.endWrite]

theorem json_headersSent (cr cr' : CoreRouteResponse) (d : String)
    (h : cr.json d = .ok cr') : cr'.res.headersSent = true := by
  unfold CoreRouteResponse.json at h
  by_cases hs : cr.res.headersSent = true
  · rw [if_pos hs] at h
    obtain rfl : _ = cr' := by simpa using h
    simp [ServerResponse.endWrite, hs]
  · have hs' : cr.res.headersSent = false := by simpa using hs
    rw [if_neg hs] at h
    simp only [CoreRouteResponse.set, ServerResponse.setHeader, hs', Bool.false_eq_true,
      if_false, exceptBind_ok, ServerResponse.writeHead] at h
    obtain rfl : _ = cr' := by simpa using h
    simp [ServerResponse.endWrite]

/-! Remaining fixtures for the claim theorems. -/

/-- The 404 response the dispatcher produces on a fresh platform response
when nothing matches and static serving is off. -/
def notFoundResponse : ServerResponse :=
  { headersSent := true, pendingHeaders := [], sentStatus := some 404,
    sentHeaders := [("Content-Type", "text/plain")], body := ["Route Not Found"], ended := true }

/-- The compiled form of registering `/user/:id` with the probe handler A. -/
def c1RouteA : Route :=
  ⟨"/user/:id", [SegPat.lit "user", SegPat.param "id"], ["id"], probeHandler "A"⟩

/-- The compiled form of registering `/user/admin` with the probe handler B. -/
def c1RouteB : Route :=
  ⟨"/user/admin", [SegPat.lit "user", SegPat.lit "admin"], [], probeHandler "B"⟩

/-- The compiled form of registering `/blog/:category/:postId`. -/
def blogRoute : Route :=
  ⟨"/blog/:category/:postId", (pathToRegex "/blog/:category/:postId").1,
    (pathToRegex "/blog/:category/:postId").2, probeHandler "H"⟩

/-- Static serving rooted at `public`. -/
def pubRouter : CoreRoute := ({} : CoreRoute).serveStaticFiles "public"

/-- A router with the throw-after-send handler on GET `/t`. -/
def c6Router : CoreRoute := ({} : CoreRoute).get "/t" throwingAfterSendHandler

/-- A handler that throws synchronously before touching the response. -/
def throwingHandler : Handler := fun _ cr => .error ("Error: boom", cr)

/-- A router with the immediately-throwing handler on GET `/t`. -/
def c6bRouter : CoreRoute := ({} : CoreRoute).get "/t" throwingHandler

/-- The response state the handler left when it threw after its 200 send:
headers (CORS staged by dispatch plus the content type set by send) are out
with status 200 and body "ok". -/
def c6ThrownState : ServerResponse :=
  { headersSent := true
    pendingHeaders := [("Access-Control-Allow-Origin", "*"),
      ("Access-Control-Allow-Methods", "GET, POST, PUT, DELETE, PATCH, OPTIONS"),
      ("Access-Control-Allow-Headers", "Content-Type, Authorization"),
      ("Content-Type", "text/plain")]
    sentStatus := some 200
    sentHeaders := [("Access-Control-Allow-Origin", "*"),
      ("Access-Control-Allow-Methods", "GET, POST, PUT, DELETE, PATCH, OPTIONS"),
      ("Access-Control-Allow-Headers", "Content-Type, Authorization"),
      ("Content-Type", "text/plain")]
    body := ["ok"]
    ended := true }

/-- A wrapper over a platform response whose headers went out through a
plain `end()` (status 200, no headers, no body). -/
def endedWrapper : CoreRouteResponse :=
  { res := { headersSent := true, pendingHeaders := [], sentStatus := some 200,
             sentHeaders := [], body := [], ended := true } }

/-! The claim theorems. -/

/-- C1: for every request whose method has a route list, dispatch scans that
list in registration order (registration appends to it) and the outcome is
the invocation step of the first route whose compiled matcher matches the
pathname, all later routes being ignored; in particular, with GET routes
`/user/:id` registered before `/user/admin`, a GET request for `/user/admin`
invokes the first-registered route's handler, which observes params binding
id to admin. -/
theorem c1_dispatch_first_match_wins :
    (∀ (router : CoreRoute) (fs : FS) (req : Request) (res : ServerResponse)
        (routes pre post : List Route) (route : Route) (xs : List String),
      req.method ≠ "OPTIONS" →
      methodRoutes router req.method = some routes →
      routes = pre ++ route :: post →
      (∀ r ∈ pre, regexMatch r.pats (pathnameOf req) = none) →
      regexMatch route.pats (pathnameOf req) = some xs →
      router.dispatch fs req res = invokeRoute router route xs req res)
  ∧ (∀ (r : CoreRoute) (p : String) (cb : Handler),
      (r.get p cb).gets = r.gets ++ [⟨p, (pathToRegex p).1, (pathToRegex p).2, cb⟩])
  ∧ c1Router.gets = [c1RouteA, c1RouteB]
  ∧ c1Router.dispatch emptyFs ⟨"GET", "/user/admin", []⟩ {} = .ok {
      headersSent := false
      pendingHeaders := defaultCorsOptions
      sentStatus := none
      sentHeaders := []
      body := ["A|id=admin"]
      ended := false } :=
  ⟨dispatch_match, fun _ _ _ => rfl, rfl, rfl⟩

/-- C1 witness: the scenario of the claim, through the general statement:
dispatching GET `/user/admin` is the invocation of the first-registered
route `/user/:id` with captures user, admin. -/
theorem c1_dispatch_first_match_wins_witness :
    c1Router.dispatch emptyFs ⟨"GET", "/user/admin", []⟩ {} =
      invokeRoute c1Router c1RouteA ["user", "admin"] ⟨"GET", "/user/admin", []⟩ {} :=
  c1_dispatch_first_match_wins.1 c1Router emptyFs ⟨"GET", "/user/admin", []⟩ {}
    c1Router.gets [] [c1RouteB] c1RouteA ["user", "admin"]
    (by decide) rfl rfl (by simp) (by decide)

/-- C2: for a route compiled from a pattern (a registered route's parameter
names are pairwise distinct, the platform rejecting duplicate named capture
groups at compilation) and a path its matcher accepts, the params mapping
dispatch attaches is exactly the pattern's parameter names, in left-to-right
textual order, bound to the correspondingly matched path segments, every
bound value being non-empty; for `/blog/:category/:postId` and
`/blog/tech/42` the mapping is exactly category to tech, postId to 42. -/
theorem c2_parameter_extraction :
    (∀ (p path : String) (route : Route) (xs : List String),
      route.pats = (pathToRegex p).1 →
      route.paramNames = (pathToRegex p).2 →
      route.paramNames.Nodup →
      regexMatch route.pats path = some xs →
      dispatchParams route xs = extractParams route.pats xs
        ∧ (extractParams route.pats xs).map Prod.fst = route.paramNames
        ∧ ∀ pv ∈ extractParams route.pats xs, pv.2 ≠ "")
  ∧ dispatchParams blogRoute ["blog", "tech", "42"] = [("category", "tech"), ("postId", "42")]
  ∧ c2Router.dispatch emptyFs ⟨"GET", "/blog/tech/42", []⟩ {} = .ok {
      headersSent := false
      pendingHeaders := defaultCorsOptions
      sentStatus := none
      sentHeaders := []
      body := ["H|category=tech&postId=42"]
      ended := false } := by
  refine ⟨?_, by decide, rfl⟩
  intro p path route xs hpats hnames hnd hmatch
  have hall := regexMatch_allMatch route.pats path xs hmatch
  refine ⟨dispatchParams_eq p path route xs hpats hnames hnd hmatch, ?_,
    extractParams_values_ne _ _ hall⟩
  rw [extractParams_keys _ _ hall, hpats, pats_paramNames, ← hnames]

/-- C2 witness: the general statement at the `/blog/:category/:postId`
route and the match of `/blog/tech/42`. -/
theorem c2_parameter_extraction_witness :
    dispatchParams blogRoute ["blog", "tech", "42"] =
        extractParams blogRoute.pats ["blog", "tech", "42"]
      ∧ (extractParams blogRoute.pats ["blog", "tech", "42"]).map Prod.fst = blogRoute.paramNames
      ∧ ∀ pv ∈ extractParams blogRoute.pats ["blog", "tech", "42"], pv.2 ≠ "" :=
  c2_parameter_extraction.1 "/blog/:category/:postId" "/blog/tech/42" blogRoute
    ["blog", "tech", "42"] rfl rfl (by decide) (by decide)

/-- C3: an OPTIONS dispatch applies the configured CORS headers, responds
204 with an empty body, and terminates without consulting route lists or the
static resolver: its outcome depends only on the CORS policy, whatever the
routes, the static configuration, the file system or the request target. -/
theorem c3_options_preflight :
    (∀ (r1 r2 : CoreRoute) (fs1 fs2 : FS) (req1 req2 : Request) (res : ServerResponse),
      req1.method = "OPTIONS" → req2.method = "OPTIONS" →
      r1.corsOptions = r2.corsOptions →
      r1.dispatch fs1 req1 res = r2.dispatch fs2 req2 res)
  ∧ (∀ (router : CoreRoute) (fs : FS) (req : Request),
      req.method = "OPTIONS" →
      router.dispatch fs req {} = .ok {
        headersSent := true
        pendingHeaders := mergeHeaders [] router.corsOptions
        sentStatus := some 204
        sentHeaders := mergeHeaders [] router.corsOptions
        body := []
        ended := true }) :=
  ⟨dispatch_options_invariant, dispatch_options_fresh⟩

/-- C3 witness: OPTIONS on two routers with different routes, static
configuration, file systems and targets agree, and the concrete preflight
response of the default router is 204 with the CORS headers and no body. -/
theorem c3_options_preflight_witness :
    c1Router.dispatch emptyFs ⟨"OPTIONS", "/user/admin", []⟩ {} =
      wwwRouter.dispatch allReadableFs ⟨"OPTIONS", "/other", []⟩ {}
  ∧ ({} : CoreRoute).dispatch emptyFs ⟨"OPTIONS", "/zzz", []⟩ {} = .ok {
      headersSent := true
      pendingHeaders := mergeHeaders [] defaultCorsOptions
      sentStatus := some 204
      sentHeaders := mergeHeaders [] defaultCorsOptions
      body := []
      ended := true } :=
  ⟨c3_options_preflight.1 c1Router wwwRouter emptyFs allReadableFs
      ⟨"OPTIONS", "/user/admin", []⟩ ⟨"OPTIONS", "/other", []⟩ {} rfl rfl rfl,
   c3_options_preflight.2 ({} : CoreRoute) emptyFs ⟨"OPTIONS", "/zzz", []⟩ rfl⟩

/-- C5: with static serving disabled, a request whose method's route list
matches nothing, or whose method has no route list at all (any method other
than the five registered verbs, OPTIONS being handled earlier), receives the
404 plain-text Route Not Found response; in particular a route registered
only via post is invisible to a GET dispatch of the same path. -/
theorem c5_route_not_found :
    (∀ (router : CoreRoute) (fs : FS) (req : Request) (routes : List Route),
      req.method ≠ "OPTIONS" →
      methodRoutes router req.method = some routes →
      (∀ r ∈ routes, regexMatch r.pats (pathnameOf req) = none) →
      router.isStaticServingEnabled = false →
      router.dispatch fs req {} = .ok notFoundResponse)
  ∧ (∀ (router : CoreRoute) (fs : FS) (req : Request),
      req.method ≠ "OPTIONS" →
      methodRoutes router req.method = none →
      router.isStaticServingEnabled = false →
      router.dispatch fs req {} = .ok notFoundResponse)
  ∧ (∀ (m : String), m ≠ "GET" → m ≠ "PUT" → m ≠ "POST" → m ≠ "DELETE" → m ≠ "PATCH" →
      ∀ router : CoreRoute, methodRoutes router m = none)
  ∧ c5Router.dispatch emptyFs ⟨"GET", "/items", []⟩ {} = .ok notFoundResponse := by
  refine ⟨?_, ?_, ?_, rfl⟩
  · intro router fs req routes hm hroutes hnone hstatic
    rw [dispatch_nomatch_some router fs req {} routes hm hroutes hnone,
      staticOrNotFound_disabled router fs req {} hstatic rfl]
    rfl
  · intro router fs req hm hroutes hstatic
    rw [dispatch_nomatch_none router fs req {} hm hroutes,
      staticOrNotFound_disabled router fs req {} hstatic rfl]
    rfl
  · intro m h1 h2 h3 h4 h5 router
    unfold methodRoutes
    split <;> simp_all

/-- C5 witness: the empty router 404s a GET, a HEAD request has no route
list and 404s, and HEAD indeed selects no list. -/
theorem c5_route_not_found_witness :
    ({} : CoreRoute).dispatch emptyFs ⟨"GET", "/nope", []⟩ {} = .ok notFoundResponse
  ∧ ({} : CoreRoute).dispatch emptyFs ⟨"HEAD", "/nope", []⟩ {} = .ok notFoundResponse
  ∧ methodRoutes ({} : CoreRoute) "HEAD" = none :=
  ⟨c5_route_not_found.1 ({} : CoreRoute) emptyFs ⟨"GET", "/nope", []⟩ [] (by decide) rfl
      (by simp) rfl,
   c5_route_not_found.2.1 ({} : CoreRoute) emptyFs ⟨"HEAD", "/nope", []⟩ (by decide) rfl rfl,
   c5_route_not_found.2.2.1 "HEAD" (by decide) (by decide) (by decide) (by decide) (by decide)
     ({} : CoreRoute)⟩

/-- C4 as stated is false: the 404 fall-through response of a
default-configured router (no routes, static serving off) carries only the
text/plain content type and none of the configured CORS headers. -/
theorem c4_cors_counterexample :
    ({} : CoreRoute).corsOptions = defaultCorsOptions
  ∧ ({} : CoreRoute).dispatch emptyFs ⟨"GET", "/x", []⟩ {} = .ok notFoundResponse
  ∧ lookupStr notFoundResponse.sentHeaders "Access-Control-Allow-Origin" = none
  ∧ lookupStr notFoundResponse.sentHeaders "Access-Control-Allow-Methods" = none
  ∧ lookupStr notFoundResponse.sentHeaders "Access-Control-Allow-Headers" = none :=
  ⟨rfl, rfl, rfl, rfl, rfl⟩

/-- C4 amended: the CORS policy is applied to the OPTIONS preflight response
and, on a matched route, staged on the response before the handler runs (so
handler-produced responses and the 500 on a synchronous throw start from it),
but the 404 fall-through carries no CORS header and the static file path
never reads the policy. -/
theorem c4_cors_amended :
    (∀ (router : CoreRoute) (fs : FS) (req : Request),
      req.method = "OPTIONS" →
      router.dispatch fs req {} = .ok {
        headersSent := true
        pendingHeaders := mergeHeaders [] router.corsOptions
        sentStatus := some 204
        sentHeaders := mergeHeaders [] router.corsOptions
        body := []
        ended := true })
  ∧ (∀ (router : CoreRoute) (route : Route) (xs : List String) (req : Request),
      invokeRoute router route xs req {} =
        match route.handler { req with params := dispatchParams route xs }
            { res := { pendingHeaders := mergeHeaders [] router.corsOptions } } with
        | .ok cr => .ok cr.res
        | .error (errStr, cr) => errorHandler cr.res 500 ("Internal Server Error : " ++ errStr))
  ∧ (∀ (router : CoreRoute) (fs : FS) (req : Request) (routes : List Route),
      req.method ≠ "OPTIONS" →
      methodRoutes router req.method = some routes →
      (∀ r ∈ routes, regexMatch r.pats (pathnameOf req) = none) →
      router.isStaticServingEnabled = false →
      router.dispatch fs req {} = .ok notFoundResponse ∧
        lookupStr notFoundResponse.sentHeaders "Access-Control-Allow-Origin" = none)
  ∧ (∀ (cors' : List (String × String)) (router : CoreRoute) (fs : FS) (req : Request)
        (res : ServerResponse),
      staticHandler { router with corsOptions := cors' } fs req res =
        staticHandler router fs req res) := by
  refine ⟨dispatch_options_fresh, ?_, ?_, staticHandler_cors_independent⟩
  · intro router route xs req
    exact invokeRoute_unsent router route xs req {} rfl
  · intro router fs req routes hm hroutes hnone hstatic
    refine ⟨?_, rfl⟩
    rw [dispatch_nomatch_some router fs req {} routes hm hroutes hnone,
      staticOrNotFound_disabled router fs req {} hstatic rfl]
    rfl

/-- C4 amended witness: the preflight response of the static router carries
the CORS headers, and the empty router's 404 fall-through carries none. -/
theorem c4_cors_amended_witness :
    wwwRouter.dispatch emptyFs ⟨"OPTIONS", "/any", []⟩ {} = .ok {
      headersSent := true
      pendingHeaders := mergeHeaders [] defaultCorsOptions
      sentStatus := some 204
      sentHeaders := mergeHeaders [] defaultCorsOptions
      body := []
      ended := true }
  ∧ (({} : CoreRoute).dispatch emptyFs ⟨"GET", "/x", []⟩ {} = .ok notFoundResponse ∧
      lookupStr notFoundResponse.sentHeaders "Access-Control-Allow-Origin" = none) :=
  ⟨c4_cors_amended.1 wwwRouter emptyFs ⟨"OPTIONS", "/any", []⟩ rfl,
   c4_cors_amended.2.2.1 ({} : CoreRoute) emptyFs ⟨"GET", "/x", []⟩ [] (by decide) rfl
     (by simp) rfl⟩

/-- C6 as stated is false: a handler that completes a 200 send and then
throws makes the 500 write of dispatch raise headers-already-sent, a
platform error that propagates out of dispatch; no 500 response is
produced (the sent response is the handler's 200). -/
theorem c6_handler_throw_counterexample :
    c6Router.dispatch emptyFs ⟨"GET", "/t", []⟩ {} =
      .error (.headersAlreadySent c6ThrownState)
  ∧ c6ThrownState.sentStatus = some 200 :=
  ⟨rfl, rfl⟩

/-- C6 amended: a synchronous throw of a matched handler is caught and,
provided the handler has not already sent the response headers, answered by
exactly one 500 plain-text response whose body embeds the error's string
representation, nothing propagating and nothing retried; if the handler
threw after sending its headers, the 500 header write itself raises
headers-already-sent, which propagates out of dispatch. -/
theorem c6_handler_throw_amended :
    ∀ (router : CoreRoute) (fs : FS) (req : Request) (res : ServerResponse)
      (routes pre post : List Route) (route : Route) (xs : List String)
      (e : String) (cr : CoreRouteResponse),
      req.method ≠ "OPTIONS" →
      methodRoutes router req.method = some routes →
      routes = pre ++ route :: post →
      (∀ r ∈ pre, regexMatch r.pats (pathnameOf req) = none) →
      regexMatch route.pats (pathnameOf req) = some xs →
      res.headersSent = false →
      route.handler { req with params := dispatchParams route xs }
          { res := { res with pendingHeaders := mergeHeaders res.pendingHeaders router.corsOptions } }
        = .error (e, cr) →
      (cr.res.headersSent = false →
        router.dispatch fs req res = .ok { cr.res with
          headersSent := true
          sentStatus := some 500
          sentHeaders := mergeHeaders cr.res.pendingHeaders [("Content-Type", "text/plain")]
          body := cr.res.body ++ ["Internal Server Error : " ++ e]
          ended := true })
      ∧ (cr.res.headersSent = true →
        router.dispatch fs req res = .error (.headersAlreadySent cr.res)) := by
  intro router fs req res routes pre post route xs e cr hm hroutes hsplit hpre hroute hres hthrow
  have hd : router.dispatch fs req res =
      errorHandler cr.res 500 ("Internal Server Error : " ++ e) := by
    rw [dispatch_match router fs req res routes pre post route xs hm hroutes hsplit hpre hroute,
      invokeRoute_unsent router route xs req res hres, hthrow]
  exact ⟨fun h => by rw [hd, errorHandler_unsent _ _ _ h],
         fun h => by rw [hd, errorHandler_sent _ _ _ h]⟩

/-- C6 amended witness: a handler that throws before touching the response
yields the single 500 response with the error text in the body. -/
theorem c6_handler_throw_amended_witness :
    c6bRouter.dispatch emptyFs ⟨"GET", "/t", []⟩ {} = .ok {
      headersSent := true
      pendingHeaders := mergeHeaders [] defaultCorsOptions
      sentStatus := some 500
      sentHeaders := mergeHeaders (mergeHeaders [] defaultCorsOptions) [("Content-Type", "text/plain")]
      body := ["Internal Server Error : Error: boom"]
      ended := true } :=
  (c6_handler_throw_amended c6bRouter emptyFs ⟨"GET", "/t", []⟩ {}
    c6bRouter.gets [] [] ⟨"/t", [SegPat.lit "t"], [], throwingHandler⟩ ["t"]
    "Error: boom" ⟨{ pendingHeaders := mergeHeaders [] defaultCorsOptions }, none⟩
    (by decide) rfl rfl (by simp) (by decide) rfl rfl).1 rfl

/-- C7 as stated is false: with the static root configured as the working
directory, the candidate path for `/.htaccess` is `.htaccess`, whose only
segment begins with a dot, yet the dotfile regex — which requires a slash
before the dot — does not fire: the file is access-checked and served with
status 200 and its content. -/
theorem c7_dotfile_counterexample :
    pathJoin dotRouter.staticFolder "/.htaccess" = ".htaccess"
  ∧ dotfileTest ".htaccess" = false
  ∧ allReadableFs.readable ".htaccess" = true
  ∧ dotRouter.dispatch allReadableFs ⟨"GET", "/.htaccess", []⟩ {} = .ok {
      headersSent := true
      pendingHeaders := []
      sentStatus := some 200
      sentHeaders := [("Content-Type", "application/octet-stream")]
      body := ["secret-content"]
      ended := true } :=
  ⟨rfl, rfl, rfl, rfl⟩

/-- C7 amended: the 403 dotfile rejection fires exactly when the candidate
path contains a slash immediately followed by a dot — a non-leading segment
beginning with a dot (and no line terminator anywhere); on such a path
serveFile is the 403 error response, stated without reference to the file
system, so neither access check nor read happens there; on a non-directory
candidate the whole static handler is that 403.  A leading dot segment of a
relative candidate (root folder `.`) escapes the rule. -/
theorem c7_dotfile_amended :
    (∀ (fs : FS) (filePath : String) (res : ServerResponse),
      dotfileTest filePath = true →
      serveFile fs filePath res = errorHandler res 403 "Forbidden")
  ∧ (∀ (router : CoreRoute) (fs : FS) (req : Request) (res : ServerResponse),
      fs.isDirectory (pathJoin router.staticFolder req.url) = false →
      dotfileTest (pathJoin router.staticFolder req.url) = true →
      staticHandler router fs req res = errorHandler res 403 "Forbidden")
  ∧ pubRouter.dispatch allReadableFs ⟨"GET", "/.htaccess", []⟩ {} = .ok {
      headersSent := true
      pendingHeaders := []
      sentStatus := some 403
      sentHeaders := [("Content-Type", "text/plain")]
      body := ["Forbidden"]
      ended := true } := by
  refine ⟨serveFile_dotfile, ?_, rfl⟩
  intro router fs req res hdir hdot
  rw [staticHandler_nondir router fs req res hdir, serveFile_dotfile fs _ res hdot]

/-- C7 amended witness: the rule fired on the concrete candidate
`public/.htaccess`, at the serveFile and at the static-handler level. -/
theorem c7_dotfile_amended_witness :
    serveFile allReadableFs "public/.htaccess" ({} : ServerResponse) =
      errorHandler ({} : ServerResponse) 403 "Forbidden"
  ∧ staticHandler pubRouter allReadableFs ⟨"GET", "/.htaccess", []⟩ {} =
      errorHandler ({} : ServerResponse) 403 "Forbidden" :=
  ⟨c7_dotfile_amended.1 allReadableFs "public/.htaccess" {} (by decide),
   c7_dotfile_amended.2.1 pubRouter allReadableFs ⟨"GET", "/.htaccess", []⟩ {} rfl (by decide)⟩

/-- C8: the claim matches the code's own comments but not the code: for a
directory candidate without readable index.html the handler sends the 404 —
and then, the early return being missing, still runs serveFile on the
directory path, whose header write raises headers-already-sent: a second
response is attempted after the 404 (the carried state shows the 404 File
Not Found was already out).  When a readable index.html is present it is
served in place of the directory, as claimed. -/
theorem c8_directory_no_index_bug :
    wwwRouter.dispatch c8Fs ⟨"GET", "/docs", []⟩ {} =
      .error (.headersAlreadySent {
        headersSent := true
        pendingHeaders := []
        sentStatus := some 404
        sentHeaders := [("Content-Type", "text/plain")]
        body := ["File Not Found"]
        ended := true })
  ∧ wwwRouter.dispatch c8IdxFs ⟨"GET", "/docs", []⟩ {} = .ok {
      headersSent := true
      pendingHeaders := []
      sentStatus := some 200
      sentHeaders := [("Content-Type", "text/html")]
      body := ["IDX"]
      ended := true } :=
  ⟨rfl, rfl⟩

/-- C9 as stated is false: the static handler joins the root with the raw
request target, not with its path component.  For GET `/a.txt?q=1` the
path-component candidate `/www/a.txt` exists, is readable, is no directory
and no dotfile, yet the response is 404, because the candidate actually
probed is `/www/a.txt?q=1`. -/
theorem c9_static_path_counterexample :
    urlPathname "/a.txt?q=1" = "/a.txt"
  ∧ c9Fs.readable (pathJoin wwwRouter.staticFolder (urlPathname "/a.txt?q=1")) = true
  ∧ c9Fs.isDirectory (pathJoin wwwRouter.staticFolder (urlPathname "/a.txt?q=1")) = false
  ∧ dotfileTest (pathJoin wwwRouter.staticFolder (urlPathname "/a.txt?q=1")) = false
  ∧ wwwRouter.dispatch c9Fs ⟨"GET", "/a.txt?q=1", []⟩ {} = .ok {
      headersSent := true
      pendingHeaders := []
      sentStatus := some 404
      sentHeaders := [("Content-Type", "text/plain")]
      body := ["File Not Found"]
      ended := true }
  ∧ pathJoin wwwRouter.staticFolder "/a.txt?q=1" ≠
      pathJoin wwwRouter.staticFolder (urlPathname "/a.txt?q=1") :=
  ⟨rfl, rfl, rfl, rfl, rfl, by decide⟩

/-- C9 amended: for a request falling through to static serving the
candidate is the root folder joined with the raw request target (equal to
the path component whenever the target carries no query or fragment), and
when that candidate is an accessible, non-dotfile, non-directory path whose
stream delivers, the response is 200 with the Content-Type resolved by the
MIME table from the candidate's extension — application/octet-stream for an
unknown extension — followed by the file content. -/
theorem c9_static_serving_amended :
    (∀ (router : CoreRoute) (fs : FS) (req : Request),
      req.method ≠ "OPTIONS" →
      ((∃ routes, methodRoutes router req.method = some routes ∧
          ∀ r ∈ routes, regexMatch r.pats (pathnameOf req) = none) ∨
        methodRoutes router req.method = none) →
      router.isStaticServingEnabled = true →
      fs.isDirectory (pathJoin router.staticFolder req.url) = false →
      dotfileTest (pathJoin router.staticFolder req.url) = false →
      fs.readable (pathJoin router.staticFolder req.url) = true →
      fs.streamFails (pathJoin router.staticFolder req.url) = false →
      router.dispatch fs req {} = .ok {
        headersSent := true
        pendingHeaders := []
        sentStatus := some 200
        sentHeaders := [("Content-Type", MimeTypes.getType (pathJoin router.staticFolder req.url))]
        body := [fs.content (pathJoin router.staticFolder req.url)]
        ended := true })
  ∧ MimeTypes.getType "archive.unknownext" = "application/octet-stream" := by
  refine ⟨?_, rfl⟩
  intro router fs req hm hroutes hon hdir hdot hread hstream
  have hd : router.dispatch fs req {} = staticOrNotFound router fs req {} := by
    rcases hroutes with ⟨routes, hsome, hnone⟩ | hnone
    · exact dispatch_nomatch_some router fs req {} routes hm hsome hnone
    · exact dispatch_nomatch_none router fs req {} hm hnone
  rw [hd]
  unfold staticOrNotFound
  rw [hon]
  simp only [if_true]
  rw [staticHandler_nondir router fs req {} hdir,
    serveFile_ok fs _ {} hdot hread hstream rfl]
  rfl

/-- C9 amended witness: a readable binary file under the static root is
served with 200 and its sniffed-by-extension content type. -/
theorem c9_static_serving_amended_witness :
    wwwRouter.dispatch allReadableFs ⟨"GET", "/file.bin", []⟩ {} = .ok {
      headersSent := true
      pendingHeaders := []
      sentStatus := some 200
      sentHeaders := [("Content-Type", MimeTypes.getType (pathJoin wwwRouter.staticFolder "/file.bin"))]
      body := [allReadableFs.content (pathJoin wwwRouter.staticFolder "/file.bin")]
      ended := true } :=
  c9_static_serving_amended.1 wwwRouter allReadableFs ⟨"GET", "/file.bin", []⟩ (by decide)
    (Or.inl ⟨[], rfl, by simp⟩) rfl rfl (by decide) rfl rfl

/-- C10 as stated is false: after end() has completed, status() is indeed
silently ignored, but set() forwards unguarded to the platform setHeader,
which raises headers-already-sent instead of silently dropping the
mutation. -/
theorem c10_set_after_end_counterexample :
    ({} : CoreRouteResponse).endResponse = .ok endedWrapper
  ∧ endedWrapper.status 500 = endedWrapper
  ∧ endedWrapper.set "X-Powered-By" "test" = .error (.headersAlreadySent endedWrapper.res) :=
  ⟨rfl, rfl, rfl⟩

/-- C10 amended: once the underlying response has sent its headers — which
holds after every completed end, send or json — status(code) is silently
ignored, leaving the wrapper (buffered status included) unchanged, while
set(...) is unguarded: it forwards to the platform setHeader, which raises a
headers-already-sent error carrying the response unchanged. -/
theorem c10_headers_sent_guard_amended :
    (∀ (cr : CoreRouteResponse) (code : Nat),
      cr.res.headersSent = true → cr.status code = cr)
  ∧ (∀ (cr : CoreRouteResponse) (f v : String),
      cr.res.headersSent = true → cr.set f v = .error (.headersAlreadySent cr.res))
  ∧ (∀ cr cr' : CoreRouteResponse, cr.endResponse = .ok cr' → cr'.res.headersSent = true)
  ∧ (∀ (cr cr' : CoreRouteResponse) (d : SendData), cr.send d = .ok cr' →
      cr'.res.headersSent = true)
  ∧ (∀ (cr cr' : CoreRouteResponse) (d : String), cr.json d = .ok cr' →
      cr'.res.headersSent = true) :=
  ⟨status_sent, set_sent, endResponse_headersSent, send_headersSent, json_headersSent⟩

/-- C10 amended witness: on the ended wrapper, status is a no-op and set
raises; the ended wrapper indeed arose from end() on a fresh response. -/
theorem c10_headers_sent_guard_amended_witness :
    endedWrapper.status 418 = endedWrapper
  ∧ endedWrapper.set "X-A" "1" = .error (.headersAlreadySent endedWrapper.res)
  ∧ endedWrapper.res.headersSent = true :=
  ⟨c10_headers_sent_guard_amended.1 endedWrapper 418 rfl,
   c10_headers_sent_guard_amended.2.1 endedWrapper "X-A" "1" rfl,
   c10_headers_sent_guard_amended.2.2.1 ({} : CoreRouteResponse) endedWrapper rfl⟩

end CoreRouteModel
